import Mathlib

/-!
Verification development for ruby-prof's `ext/ruby_prof/rp_method.c`
(call-graph method-node store and identity resolution).

The C code is shallowly embedded: Ruby `VALUE` handles are natural numbers,
the host interpreter's reflection primitives (`BUILTIN_TYPE`, `FL_TEST`,
`rb_iv_get(klass, "__attached__")`, `rb_class_superclass`, `RBASIC(k)->klass`,
`rb_class_name`, `rb_any_to_s`, `rb_id2str`) are fields of a `Host` record,
C strings are `Option String` (NULL = `none`), `st_table`s keyed by
`prof_method_key_t` are association lists whose key matching follows
`st_lookup`/`st_insert` (hash equality plus comparator equality), and a
wrapped `RubyProf::MethodInfo` object whose `DATA_PTR` may have been nulled
out by a free is an `Option prof_method_t`.  Fallible paths return `Except`;
reads of never-initialized storage are modelled as a distinguished error.
-/

/-- Ruby `VALUE`: an object handle, modelled as a natural number. -/
abbrev VALUE := Nat

/-- Ruby method identifier (`ID`), an opaque integer. -/
abbrev RubyID := Nat

/-- Ruby's false object (`Qfalse` is the all-zero handle). -/
def Qfalse : VALUE := 0

/-- Ruby's nil object handle (`Qnil` = 8 on the targeted interpreters). -/
def Qnil : VALUE := 8

/-- Ruby's truthiness test: `RTEST(v)` is false exactly for `Qfalse` (0) and
`Qnil` (8), i.e. `(v & ~Qnil) != 0`. -/
def RTEST (v : Nat) : Bool := !(v == 0 || v == 8)

/-- The `BUILTIN_TYPE` tag of a handle, restricted to the tags the code
inspects; every other builtin tag (strings, arrays, ...) is `tOther`. -/
inductive BType where
  | tClass
  | tModule
  | tIClass
  | tObject
  | tOther
deriving DecidableEq

/-- The host interpreter's reflection primitives, as consumed by
`rp_method.c`.  All are pure queries. -/
structure Host where
  /-- `BUILTIN_TYPE(v)` -/
  btype : VALUE → BType
  /-- `FL_TEST(v, FL_SINGLETON)` -/
  flSingleton : VALUE → Bool
  /-- `rb_iv_get(v, "__attached__")`: the entity a singleton class is attached to -/
  attached : VALUE → VALUE
  /-- `rb_class_superclass(v)` -/
  superclass : VALUE → VALUE
  /-- `RBASIC(v)->klass`: for a `T_ICLASS` inclusion proxy, the proxied module -/
  rbasicKlass : VALUE → VALUE
  /-- `rb_class_name(v)`: qualified class/module name -/
  className : VALUE → String
  /-- `rb_any_to_s(v)`: generic `#<Klass:0x...>` string conversion -/
  anyToS : VALUE → String
  /-- `rb_id2str(id)`: the plain method name for an `ID` -/
  id2str : RubyID → String

/-- Relation bit offsets (`rp_method.h`, not part of `src/`): the header only
fixes three distinct bit offsets for the `RP_REL_*` macros; the concrete
numbers are irrelevant to every property, only distinctness matters. -/
def kModuleIncludee : Nat := 0

/-- Relation bit offset for a singleton of a class/module. -/
def kModuleSingleton : Nat := 1

/-- Relation bit offset for a singleton of a plain object. -/
def kObjectSingleton : Nat := 2

/-- `RP_REL_GET(r, off)` = `(r) & (1 << (off))` viewed as a boolean. -/
def RP_REL_GET (r off : Nat) : Bool := r.testBit off

/-- `RP_REL_SET(r, off)` = `r |= (1 << (off))`. -/
def RP_REL_SET (r off : Nat) : Nat := r ||| (1 <<< off)

/-- Prepend a character to the first chunk of a split result (helper for
the leftmost-match splitter). -/
def consHead (c : Char) : List (List Char) → List (List Char)
  | [] => [[c]]
  | p :: ps => (c :: p) :: ps

/-- Leftmost non-overlapping split of a character list at every `"::"`
occurrence (the scan performed by `rb_str_split(str, "::")` before Ruby
drops trailing empty fields). -/
def splitColons : List Char → List (List Char)
  | [] => [[]]
  | [c] => [[c]]
  | c1 :: c2 :: rest =>
    if c1 = ':' ∧ c2 = ':' then [] :: splitColons rest
    else consHead c1 (splitColons (c2 :: rest))

/-- Ruby's `String#split` drops trailing empty fields (so `""` splits to
`[]` and `"A::"` splits to `["A"]`). -/
def dropTrailingEmpties : List String → List String
  | [] => []
  | x :: rest =>
    match dropTrailingEmpties rest with
    | [] => if x = "" then [] else [x]
    | y :: ys => x :: y :: ys

/-- `rb_str_split(str, "::")`: Ruby string split on the namespace separator. -/
def rb_str_split (s : String) : List String :=
  dropTrailingEmpties ((splitColons s.data).map String.mk)

/-- `rb_ary_join(ary, sep)`: Ruby `Array#join`. -/
def rb_ary_join : List String → String → String
  | [], _ => ""
  | [x], _ => x
  | x :: y :: rest, sep => x ++ sep ++ rb_ary_join (y :: rest) sep

/-- `figure_singleton_name`: render a singleton class from what it is
attached to (`rp_method.c:16`). -/
def figure_singleton_name (h : Host) (klass : VALUE) : String :=
  let attached := h.attached klass
  match h.btype attached with
  | BType.tClass => "<Class::" ++ h.className attached ++ ">"
  | BType.tModule => "<Module::" ++ h.className attached ++ ">"
  | BType.tObject => "<Object::" ++ h.className (h.superclass klass) ++ ">"
  | _ => h.anyToS klass

/-- `klass_name`: display name of an owning type (`rp_method.c:69`). -/
def klass_name (h : Host) (klass : VALUE) : String :=
  if klass = 0 ∨ klass = Qnil then "[global]"
  else match h.btype klass with
    | BType.tModule => h.className klass
    | BType.tClass =>
      if h.flSingleton klass then figure_singleton_name h klass
      else h.className klass
    | _ => "[unknown]"

/-- `method_name`: plain method name, `"[no method]"` for an absent id
(`rp_method.c:99`). -/
def method_name (h : Host) (mid : RubyID) : String :=
  if RTEST mid then h.id2str mid else "[no method]"

/-- `full_name`: `klass_name(klass) ++ "#" ++ method_name(mid)`
(`rp_method.c:112`). -/
def full_name (h : Host) (klass : VALUE) (mid : RubyID) : String :=
  klass_name h klass ++ "#" ++ method_name h mid

/-- `source_klass_name` (`rp_method.c:128`). -/
def source_klass_name (h : Host) (source_klass : VALUE) : String :=
  if RTEST source_klass then h.className source_klass else "[global]"

/-- `calltree_name` (`rp_method.c:147`): path-style name built from the
resolved source class and the relation bitset. -/
def calltree_name (h : Host) (source_klass : VALUE) (relation : Nat) (mid : RubyID) : String :=
  let klass_str := source_klass_name h source_klass
  let method_str := method_name h mid
  let result := rb_ary_join (rb_str_split klass_str) "/"
  let result := result ++ "::"
  let result := if RP_REL_GET relation kObjectSingleton then result ++ "*" else result
  let result := if RP_REL_GET relation kModuleSingleton then result ++ "^" else result
  result ++ method_str

/-- `prof_method_key_t`: normalized owner, method id, and the stored hash. -/
structure prof_method_key_t where
  klass : VALUE
  mid : RubyID
  key : Nat
deriving DecidableEq

/-- `method_key` (`rp_method.c:176`): normalizes the owner (0/`Qnil` become
`Qnil`; a `T_ICLASS` inclusion proxy becomes its proxied module) but computes
the stored hash `(klass << 4) + (mid << 2)` from the RAW `klass` argument,
on 64-bit `VALUE` arithmetic. -/
def method_key (h : Host) (klass : VALUE) (mid : RubyID) : prof_method_key_t :=
  { klass :=
      if klass = 0 ∨ klass = Qnil then Qnil
      else match h.btype klass with
        | BType.tIClass => h.rbasicKlass klass
        | _ => klass
    mid := mid
    key := ((klass <<< 4) + (mid <<< 2)) % 2 ^ 64 }

/-- `method_table_cmp` (`rp_method.c:474`): `st` comparator; `false` (0)
means the keys are equal. -/
def method_table_cmp (key1 key2 : prof_method_key_t) : Bool :=
  (key1.klass != key2.klass) || (key1.mid != key2.mid)

/-- `method_table_hash` (`rp_method.c:480`): the stored combined hash. -/
def method_table_hash (key : prof_method_key_t) : Nat := key.key

/-- `blank_key`: initialized once by `rp_init_method_info` via
`method_key(&blank_key, Qnil, 0)`; used as the "no parent" sentinel. -/
def blank_key : prof_method_key_t :=
  { klass := Qnil, mid := 0, key := ((Qnil <<< 4) + (0 <<< 2)) % 2 ^ 64 }

/-- Two keys collide in an `st_table` with `type_method_hash` exactly when
their hashes agree and the comparator returns 0. -/
def st_key_match (key1 key2 : prof_method_key_t) : Bool :=
  (method_table_hash key1 == method_table_hash key2) && !(method_table_cmp key1 key2)

/-- `prof_call_info_t`, boundary shape only (`rp_call_info.c` owns its
semantics): the caller node's key when there is one, and the callee
method's key. -/
structure prof_call_info_t where
  parent : Option prof_method_key_t
  method : prof_method_key_t
deriving DecidableEq

/-- An `st_table` keyed by `prof_method_key_t`, as an association list. -/
abbrev CallInfoTable := List (prof_method_key_t × prof_call_info_t)

/-- Does the table already hold an entry matching `key` (`st_lookup`)? -/
def table_has (table : CallInfoTable) (key : prof_method_key_t) : Bool :=
  table.any (fun e => st_key_match e.1 key)

/-- Modelled from the spec: `call_info_table_insert` lives in
`rp_call_info.c`, which is not under `src/`; per the spec's edge-table
discipline it is `st_insert` into a method-key-keyed table — at most one
edge per key, a matching key has its value replaced, a fresh key is
appended. -/
def call_info_table_insert (table : CallInfoTable) (key : prof_method_key_t)
    (val : prof_call_info_t) : CallInfoTable :=
  if table_has table key then
    table.map (fun e => if st_key_match e.1 key then (e.1, val) else e)
  else table ++ [(key, val)]

/-- Errors observable through the Ruby-facing wrappers:
`alreadyFreed` models the `rb_raise` on a nulled `DATA_PTR`, `nullDeref`
models dereferencing the nulled pointer without that check, and `uninit`
models reading a struct field that no code path ever initialized. -/
inductive AccessErr where
  | alreadyFreed (msg : String)
  | nullDeref
  | uninit
deriving DecidableEq

/-- The message of the `rb_raise` in `prof_get_method`/`prof_method_get`. -/
def freedMsg : String :=
  "This RubyProf::MethodInfo instance has already been freed, likely because its profile has been freed."

/-- `prof_method_t` (`rp_method.h`): the method node.  Fields that
`prof_method_create_excluded` leaves uninitialized (`root` and the two edge
tables) are `Option`s, `none` meaning "never written". -/
structure prof_method_t where
  key : prof_method_key_t
  excluded : Bool
  recursive : Int
  root : Option Bool
  visits : Nat
  source_file : Option String
  line : Int
  parent_call_infos : Option CallInfoTable
  child_call_infos : Option CallInfoTable
  source_klass : VALUE
  resolved : Bool
  relation : Nat
deriving DecidableEq

/-- `prof_method_set_source_info` (`rp_method.c:214`): copy the file name
and line; a NULL file forces `line = 0`. -/
def prof_method_set_source_info (method_data : prof_method_t)
    (source_file : Option String) (source_line : Int) : prof_method_t :=
  match source_file with
  | some f => { method_data with source_file := some f, line := source_line }
  | none => { method_data with source_file := none, line := 0 }

/-- `RUBY_EVENT_C_CALL` (ruby.h). -/
def RUBY_EVENT_C_CALL : Nat := 32

/-- `prof_method_create` (`rp_method.c:233`).  `rb_sourcefile()` — the file
of the currently interpreted source line, NULL when there is none — is
passed in as `rb_sourcefile`. -/
def prof_method_create (h : Host) (event : Nat) (klass : VALUE) (mid : RubyID)
    (line : Int) (rb_sourcefile : Option String) : prof_method_t :=
  let base : prof_method_t :=
    { key := method_key h klass mid
      root := some false
      excluded := false
      recursive := 0
      parent_call_infos := some []
      child_call_infos := some []
      visits := 0
      source_file := none
      line := 0
      source_klass := Qnil
      resolved := false
      relation := 0 }
  let source_file := if event ≠ RUBY_EVENT_C_CALL then rb_sourcefile else none
  prof_method_set_source_info base source_file line

/-- `prof_method_create_excluded` (`rp_method.c:263`): note that `root`,
`parent_call_infos` and `child_call_infos` are never assigned. -/
def prof_method_create_excluded (h : Host) (klass : VALUE) (mid : RubyID) : prof_method_t :=
  { key := method_key h klass mid
    excluded := true
    recursive := 0
    root := none
    visits := 0
    source_file := none
    line := 0
    parent_call_infos := none
    child_call_infos := none
    source_klass := Qnil
    resolved := false
    relation := 0 }

/-- `prof_method_free` (`rp_method.c:325`): unconditionally runs
`st_free_table` on both edge tables; on a node whose tables were never
created that is a read of uninitialized storage. -/
def prof_method_free (method : prof_method_t) : Except AccessErr Unit :=
  match method.parent_call_infos, method.child_call_infos with
  | some _, some _ => Except.ok ()
  | _, _ => Except.error AccessErr.uninit

/-- One iteration state of the `while (1)` walk in `resolve_source_klass`
(`rp_method.c:370`), with explicit fuel standing in for the unbounded C
loop; `none` means the fuel ran out before the walk stopped. -/
def resolve_loop (h : Host) : Nat → VALUE → Nat → Option (VALUE × Nat)
  | 0, _, _ => none
  | fuel + 1, klass, relation =>
    if klass = 0 ∨ klass = Qnil then some (klass, relation)
    else match h.btype klass with
      | BType.tClass =>
        if h.flSingleton klass then
          let attached := h.attached klass
          match h.btype attached with
          | BType.tClass => resolve_loop h fuel attached (RP_REL_SET relation kModuleSingleton)
          | BType.tModule => resolve_loop h fuel attached (RP_REL_SET relation kModuleSingleton)
          | BType.tObject =>
            resolve_loop h fuel (h.superclass klass) (RP_REL_SET relation kObjectSingleton)
          | _ =>
            resolve_loop h fuel (h.superclass klass) (RP_REL_SET relation kObjectSingleton)
        else some (klass, relation)
      | BType.tIClass =>
        resolve_loop h fuel (h.rbasicKlass klass) (RP_REL_SET relation kModuleIncludee)
      | _ => some (klass, relation)

/-- `resolve_source_klass` (`rp_method.c:370`): memoized resolution.  The
result pairs the returned `VALUE` with the (possibly updated) node. -/
def resolve_source_klass (h : Host) (fuel : Nat) (method : prof_method_t) :
    Option (VALUE × prof_method_t) :=
  if method.resolved then some (method.source_klass, method)
  else
    match resolve_loop h fuel method.key.klass 0 with
    | none => none
    | some (klass, relation) =>
      some (klass,
        { method with resolved := true, relation := relation, source_klass := klass })

/-- `prof_get_method` (`rp_method.c:201`) and its verbatim duplicate
`prof_method_get` (`rp_method.c:458`): fetch `DATA_PTR` and raise a
descriptive `RuntimeError` when it was nulled out by a free. -/
def prof_get_method (self : Option prof_method_t) : Except AccessErr prof_method_t :=
  match self with
  | none => Except.error (AccessErr.alreadyFreed freedMsg)
  | some m => Except.ok m

/-- `prof_method_callers` (`rp_method.c:545`): values of the caller table. -/
def prof_method_callers (self : Option prof_method_t) :
    Except AccessErr (List prof_call_info_t) :=
  match prof_get_method self with
  | Except.error e => Except.error e
  | Except.ok m =>
    match m.parent_call_infos with
    | some t => Except.ok (t.map Prod.snd)
    | none => Except.error AccessErr.uninit

/-- `prof_method_callees` (`rp_method.c:558`): values of the callee table. -/
def prof_method_callees (self : Option prof_method_t) :
    Except AccessErr (List prof_call_info_t) :=
  match prof_get_method self with
  | Except.error e => Except.error e
  | Except.ok m =>
    match m.child_call_infos with
    | some t => Except.ok (t.map Prod.snd)
    | none => Except.error AccessErr.uninit

/-- `prof_method_line` (`rp_method.c:571`). -/
def prof_method_line (self : Option prof_method_t) : Except AccessErr Int :=
  match prof_get_method self with
  | Except.error e => Except.error e
  | Except.ok m => Except.ok m.line

/-- `prof_method_source_file` (`rp_method.c:583`): `"ruby_runtime"` for a
node without a file. -/
def prof_method_source_file (self : Option prof_method_t) : Except AccessErr String :=
  match prof_get_method self with
  | Except.error e => Except.error e
  | Except.ok m =>
    match m.source_file with
    | some f => Except.ok f
    | none => Except.ok "ruby_runtime"

/-- `prof_method_klass` (`rp_method.c:600`). -/
def prof_method_klass (self : Option prof_method_t) : Except AccessErr VALUE :=
  match prof_get_method self with
  | Except.error e => Except.error e
  | Except.ok m => Except.ok m.key.klass

/-- `prof_method_id` (`rp_method.c:611`). -/
def prof_method_id (self : Option prof_method_t) : Except AccessErr RubyID :=
  match prof_get_method self with
  | Except.error e => Except.error e
  | Except.ok m => Except.ok m.key.mid

/-- `prof_klass_name` (`rp_method.c:624`). -/
def prof_klass_name (h : Host) (self : Option prof_method_t) : Except AccessErr String :=
  match prof_get_method self with
  | Except.error e => Except.error e
  | Except.ok m => Except.ok (klass_name h m.key.klass)

/-- `prof_method_name` (`rp_method.c:637`). -/
def prof_method_name (h : Host) (self : Option prof_method_t) : Except AccessErr String :=
  match prof_get_method self with
  | Except.error e => Except.error e
  | Except.ok m => Except.ok (method_name h m.key.mid)

/-- `prof_full_name` (`rp_method.c:649`). -/
def prof_full_name (h : Host) (self : Option prof_method_t) : Except AccessErr String :=
  match prof_get_method self with
  | Except.error e => Except.error e
  | Except.ok m => Except.ok (full_name h m.key.klass m.key.mid)

/-- `prof_method_root` (`rp_method.c:660`): reads `method->root`, which an
excluded node never initialized. -/
def prof_method_root (self : Option prof_method_t) : Except AccessErr Bool :=
  match prof_get_method self with
  | Except.error e => Except.error e
  | Except.ok m =>
    match m.root with
    | some b => Except.ok b
    | none => Except.error AccessErr.uninit

/-- `prof_method_recursive` (`rp_method.c:671`). -/
def prof_method_recursive (self : Option prof_method_t) : Except AccessErr Bool :=
  match prof_get_method self with
  | Except.error e => Except.error e
  | Except.ok m => Except.ok (decide (m.recursive ≠ 0))

/-- `prof_source_klass` (`rp_method.c:682`): triggers (memoized)
resolution; the node state after the call rides along. -/
def prof_source_klass (h : Host) (fuel : Nat) (self : Option prof_method_t) :
    Except AccessErr (Option (VALUE × prof_method_t)) :=
  match prof_get_method self with
  | Except.error e => Except.error e
  | Except.ok m => Except.ok (resolve_source_klass h fuel m)

/-- `prof_calltree_name` (`rp_method.c:694`). -/
def prof_calltree_name (h : Host) (fuel : Nat) (self : Option prof_method_t) :
    Except AccessErr (Option String) :=
  match prof_get_method self with
  | Except.error e => Except.error e
  | Except.ok m =>
    Except.ok ((resolve_source_klass h fuel m).map
      (fun r => calltree_name h r.1 r.2.relation r.2.key.mid))

/-- The flat record produced by `prof_method_dump` (`rp_method.c:702`). -/
structure DumpRecord where
  klass : VALUE
  mid : RubyID
  recursive : Int
  source_file : Option String
  line : Int
  callers : List prof_call_info_t
  callees : List prof_call_info_t
deriving DecidableEq

/-- `prof_method_dump` (`rp_method.c:702`): reads `DATA_PTR(self)` WITHOUT
the NULL test performed by `prof_get_method`, then dereferences
`method_data->key` — on a freed wrapper this is a NULL-pointer dereference,
not a raise.  Enumerating the two tables of a node that never created them
reads uninitialized storage. -/
def prof_method_dump (self : Option prof_method_t) : Except AccessErr DumpRecord :=
  match self with
  | none => Except.error AccessErr.nullDeref
  | some method_data =>
    match method_data.parent_call_infos, method_data.child_call_infos with
    | some pt, some ct =>
      Except.ok
        { klass := method_data.key.klass
          mid := method_data.key.mid
          recursive := method_data.recursive
          source_file := method_data.source_file
          line := method_data.line
          callers := pt.map Prod.snd
          callees := ct.map Prod.snd }
    | _, _ => Except.error AccessErr.uninit

/-- `prof_method_load` (`rp_method.c:721`): rebuild the key via
`method_key`, restore source info and `recursive`, and insert each caller
edge under its parent's key (`blank_key` when the edge has no parent) and
each callee edge under its method's key.  The target is the freshly
allocated node, whose tables exist; `none` models inserting into a table
that was never created. -/
def prof_method_load (h : Host) (method_data : prof_method_t) (data : DumpRecord) :
    Option prof_method_t :=
  match method_data.parent_call_infos, method_data.child_call_infos with
  | some pt, some ct =>
    let key := method_key h data.klass data.mid
    let m := { method_data with key := key }
    let m := prof_method_set_source_info m data.source_file data.line
    let m := { m with recursive := data.recursive }
    let pt := data.callers.foldl
      (fun t ci => call_info_table_insert t (ci.parent.getD blank_key) ci) pt
    let ct := data.callees.foldl
      (fun t ci => call_info_table_insert t ci.method ci) ct
    some { m with parent_call_infos := some pt, child_call_infos := some ct }
  | _, _ => none

/-- A concrete host hierarchy used to evaluate the development on explicit
inputs: 100 and 200 are two inclusion proxies (`T_ICLASS`) for module 40
("M"), 41 is module "A::B", 50 is class "Foo", 51 is the singleton class of
50 with superclass 52 ("Baz"), 60 is a plain object. -/
def testHost : Host :=
  { btype := fun v =>
      if v = 100 ∨ v = 200 then BType.tIClass
      else if v = 40 ∨ v = 41 then BType.tModule
      else if v = 50 ∨ v = 51 ∨ v = 52 then BType.tClass
      else if v = 60 then BType.tObject
      else BType.tOther
    flSingleton := fun v => v = 51
    attached := fun v => if v = 51 then 50 else Qnil
    superclass := fun v => if v = 51 then 52 else Qnil
    rbasicKlass := fun v => if v = 100 ∨ v = 200 then 40 else Qnil
    className := fun v =>
      if v = 40 then "M"
      else if v = 41 then "A::B"
      else if v = 50 then "Foo"
      else if v = 52 then "Baz"
      else "K" ++ toString v
    anyToS := fun v => "#<handle:" ++ toString v ++ ">"
    id2str := fun mid => if mid = 7 then "run" else "m" ++ toString mid }

/-- A concrete caller-edge table: one edge from the node keyed 52/3. -/
def ptC4 : CallInfoTable :=
  [(method_key testHost 52 3,
    { parent := some (method_key testHost 52 3), method := method_key testHost 50 9 })]

/-- A concrete callee-edge table: one edge to the node keyed 52/4. -/
def ctC4 : CallInfoTable :=
  [(method_key testHost 52 4,
    { parent := some (method_key testHost 50 9), method := method_key testHost 52 4 })]

/-- A concrete node used to evaluate the dump/load round trip: class 50,
method 9, the edge tables above, and the root flag set. -/
def mC4 : prof_method_t :=
  { prof_method_create testHost 0 50 9 12 (some "a.rb") with
    root := some true
    parent_call_infos := some ptC4
    child_call_infos := some ctC4 }

/-- A freshly allocated node, as `prof_method_allocate` produces before
`_load_data` runs (`prof_method_create(0, Qnil, 0, 0)`). -/
def freshC4 : prof_method_t := prof_method_create testHost 0 Qnil 0 0 none

/-! ## String-splitting lemmas -/

/-- `String.append` concatenates the underlying character lists. -/
theorem string_data_append (a b : String) : (a ++ b).data = a.data ++ b.data := rfl

/-- A string is its character list repackaged. -/
theorem string_mk_data (s : String) : String.mk s.data = s := rfl

/-- Appending the empty string is the identity. -/
theorem string_append_empty (s : String) : s ++ "" = s := by
  cases s with
  | mk d => show String.mk (d ++ []) = String.mk d; rw [List.append_nil]

/-- A chunk without a colon is not split. -/
theorem splitColons_no_colon (seg : List Char) (h : ':' ∉ seg) :
    splitColons seg = [seg] := by
  induction seg with
  | nil => rfl
  | cons c rest ih =>
    cases rest with
    | nil => rfl
    | cons d rest2 =>
      have hc : ¬(c = ':' ∧ d = ':') := by
        intro hcd
        exact h (hcd.1 ▸ List.mem_cons_self _ _)
      have h2 : ':' ∉ d :: rest2 := fun hm => h (List.mem_cons_of_mem _ hm)
      rw [show splitColons (c :: d :: rest2)
          = if c = ':' ∧ d = ':' then [] :: splitColons rest2
            else consHead c (splitColons (d :: rest2)) from rfl,
        if_neg hc, ih h2]
      rfl

/-- The splitter peels off a leading colon-free chunk at its terminating
separator. -/
theorem splitColons_append (seg rest : List Char) (h : ':' ∉ seg) :
    splitColons (seg ++ ':' :: ':' :: rest) = seg :: splitColons rest := by
  induction seg with
  | nil =>
    rw [List.nil_append]
    rw [show splitColons (':' :: ':' :: rest)
        = if ':' = ':' ∧ ':' = ':' then [] :: splitColons rest
          else consHead ':' (splitColons (':' :: rest)) from rfl,
      if_pos ⟨rfl, rfl⟩]
  | cons c seg2 ih =>
    have hc : c ≠ ':' := fun hc => h (hc ▸ List.mem_cons_self _ _)
    have h2 : ':' ∉ seg2 := fun hm => h (List.mem_cons_of_mem _ hm)
    cases seg2 with
    | nil =>
      rw [List.cons_append, List.nil_append]
      rw [show splitColons (c :: ':' :: ':' :: rest)
          = if c = ':' ∧ ':' = ':' then [] :: splitColons (':' :: rest)
            else consHead c (splitColons (':' :: ':' :: rest)) from rfl,
        if_neg (fun hcd => hc hcd.1)]
      rw [show splitColons (':' :: ':' :: rest)
          = if ':' = ':' ∧ ':' = ':' then [] :: splitColons rest
            else consHead ':' (splitColons (':' :: rest)) from rfl,
        if_pos ⟨rfl, rfl⟩]
      rfl
    | cons d seg3 =>
      rw [List.cons_append, List.cons_append]
      rw [show splitColons (c :: d :: (seg3 ++ ':' :: ':' :: rest))
          = if c = ':' ∧ d = ':' then [] :: splitColons (seg3 ++ ':' :: ':' :: rest)
            else consHead c (splitColons (d :: (seg3 ++ ':' :: ':' :: rest))) from rfl,
        if_neg (fun hcd => hc hcd.1)]
      rw [show d :: (seg3 ++ ':' :: ':' :: rest) = (d :: seg3) ++ ':' :: ':' :: rest from rfl,
        ih h2]
      rfl

/-- Prepending to a list whose trailing-empty-stripped form is nonempty
commutes with the stripping. -/
theorem dropTrailingEmpties_cons_ne (x : String) (L : List String)
    (h : dropTrailingEmpties L ≠ []) :
    dropTrailingEmpties (x :: L) = x :: dropTrailingEmpties L := by
  rw [show dropTrailingEmpties (x :: L)
      = match dropTrailingEmpties L with
        | [] => if x = "" then [] else [x]
        | y :: ys => x :: y :: ys from rfl]
  cases hL : dropTrailingEmpties L with
  | nil => exact absurd hL h
  | cons y ys => rfl

/-- Ruby split is a left inverse of Ruby join on nonempty lists of nonempty
colon-free path segments. -/
theorem rb_str_split_join (segs : List String) (h0 : segs ≠ [])
    (h1 : ∀ s ∈ segs, s ≠ "" ∧ ':' ∉ s.data) :
    rb_str_split (rb_ary_join segs "::") = segs := by
  induction segs with
  | nil => exact absurd rfl h0
  | cons s segs2 ih =>
    obtain ⟨hs, hsc⟩ := h1 s (List.mem_cons_self _ _)
    cases segs2 with
    | nil =>
      show rb_str_split s = [s]
      unfold rb_str_split
      rw [splitColons_no_colon s.data hsc]
      show dropTrailingEmpties [String.mk s.data] = [s]
      rw [string_mk_data]
      rw [show dropTrailingEmpties [s] = if s = "" then [] else [s] from rfl, if_neg hs]
    | cons t segs3 =>
      have h1' : ∀ x ∈ t :: segs3, x ≠ "" ∧ ':' ∉ x.data :=
        fun x hx => h1 x (List.mem_cons_of_mem _ hx)
      have ihh := ih (by simp) h1'
      show rb_str_split ((s ++ "::") ++ rb_ary_join (t :: segs3) "::") = _
      unfold rb_str_split at ihh ⊢
      have hdata : ((s ++ "::") ++ rb_ary_join (t :: segs3) "::").data
          = s.data ++ ':' :: ':' :: (rb_ary_join (t :: segs3) "::").data := by
        rw [string_data_append, string_data_append]
        rw [show ("::" : String).data = [':', ':'] from rfl, List.append_assoc]
        rfl
      rw [hdata, splitColons_append _ _ hsc, List.map_cons, string_mk_data]
      rw [dropTrailingEmpties_cons_ne _ _ (by rw [ihh]; exact List.cons_ne_nil _ _), ihh]

/-! ## Claim theorems -/

/-- Claim C1: the claim asserts that `method_key` computes the stored
combined hash from the NORMALIZED owner, so that call sites through
different inclusion paths collapse to one key.  The code computes the hash
from the RAW `klass` argument: the two inclusion proxies 100 and 200 of
module 40 yield keys whose owner fields are both the normalized module 40
and which the table comparator declares equal, yet whose stored hashes
differ (1628 vs 3228) — equal keys with unequal hashes cannot collapse to
one hash-table entry. -/
theorem claim_C1_hash_from_raw_owner :
    (method_key testHost 100 7).klass = 40
    ∧ (method_key testHost 200 7).klass = 40
    ∧ method_table_cmp (method_key testHost 100 7) (method_key testHost 200 7) = false
    ∧ (method_key testHost 100 7).key = 1628
    ∧ (method_key testHost 200 7).key = 3228 := by
  refine ⟨?_, ?_, ?_, ?_, ?_⟩ <;> decide

/-- Claim C2: after a free nulls out the wrapper's `DATA_PTR`, every read
accessor goes through `prof_get_method`/`prof_method_get` and raises the
descriptive "already freed" `RuntimeError` — but `prof_method_dump` reads
`DATA_PTR(self)` without that check and dereferences the NULL pointer
(`method_data->key`), so the dump operation crashes instead of raising,
contradicting the claim. -/
theorem claim_C2_dump_skips_freed_check (h : Host) (fuel : Nat) :
    prof_method_callers none = Except.error (AccessErr.alreadyFreed freedMsg)
    ∧ prof_method_callees none = Except.error (AccessErr.alreadyFreed freedMsg)
    ∧ prof_method_line none = Except.error (AccessErr.alreadyFreed freedMsg)
    ∧ prof_method_source_file none = Except.error (AccessErr.alreadyFreed freedMsg)
    ∧ prof_method_klass none = Except.error (AccessErr.alreadyFreed freedMsg)
    ∧ prof_method_id none = Except.error (AccessErr.alreadyFreed freedMsg)
    ∧ prof_klass_name h none = Except.error (AccessErr.alreadyFreed freedMsg)
    ∧ prof_method_name h none = Except.error (AccessErr.alreadyFreed freedMsg)
    ∧ prof_full_name h none = Except.error (AccessErr.alreadyFreed freedMsg)
    ∧ prof_method_root none = Except.error (AccessErr.alreadyFreed freedMsg)
    ∧ prof_method_recursive none = Except.error (AccessErr.alreadyFreed freedMsg)
    ∧ prof_source_klass h fuel none = Except.error (AccessErr.alreadyFreed freedMsg)
    ∧ prof_calltree_name h fuel none = Except.error (AccessErr.alreadyFreed freedMsg)
    ∧ prof_method_dump none = Except.error AccessErr.nullDeref := by
  exact ⟨rfl, rfl, rfl, rfl, rfl, rfl, rfl, rfl, rfl, rfl, rfl, rfl, rfl, rfl⟩

/-- Claim C5 counterexample: for the handle 60 (a `T_OBJECT`, matching none
of the known categories), `klass_name` returns the fixed literal
`"[unknown]"`, which is not the generic string conversion of the handle
(that would be `"#<handle:60>"`), refuting the claim at this input. -/
theorem claim_C5_counterexample :
    klass_name testHost 60 = "[unknown]"
    ∧ testHost.anyToS 60 = "#<handle:60>"
    ∧ klass_name testHost 60 ≠ testHost.anyToS 60 := by
  refine ⟨?_, ?_, ?_⟩ <;> decide

/-- Claim C5 amended: for every owning-type handle matching none of the
known categories (not absent, not `T_MODULE`, not `T_CLASS` — singletons
are `T_CLASS`), `klass_name` returns the fixed literal `"[unknown]"` (not a
generic string conversion of the handle); being total, it never fails. -/
theorem claim_C5_amended (h : Host) (klass : VALUE)
    (h0 : klass ≠ 0) (h1 : klass ≠ Qnil)
    (h2 : h.btype klass ≠ BType.tModule) (h3 : h.btype klass ≠ BType.tClass) :
    klass_name h klass = "[unknown]" := by
  unfold klass_name
  rw [if_neg (by rintro (rfl | rfl) <;> simp_all)]
  cases hb : h.btype klass with
  | tModule => exact absurd hb h2
  | tClass => exact absurd hb h3
  | tIClass => rfl
  | tObject => rfl
  | tOther => rfl

/-- Claim C5 amended, witness at the concrete input 60. -/
theorem claim_C5_amended_witness :
    ((60 : VALUE) ≠ 0 ∧ (60 : VALUE) ≠ Qnil ∧ testHost.btype 60 ≠ BType.tModule
      ∧ testHost.btype 60 ≠ BType.tClass)
    ∧ klass_name testHost 60 = "[unknown]" :=
  ⟨by decide, claim_C5_amended testHost 60 (by decide) (by decide) (by decide) (by decide)⟩

/-- Claim C6: singleton naming follows what the singleton is attached to:
a class yields `"<Class::" ++ name ++ ">"`, a module
`"<Module::" ++ name ++ ">"`, a plain object instance
`"<Object::" ++ name-of-the-singleton's-superclass ++ ">"`, and anything
else falls back to the generic string conversion of the singleton itself. -/
theorem claim_C6_singleton_naming (h : Host) (klass : VALUE) :
    (h.btype (h.attached klass) = BType.tClass →
      figure_singleton_name h klass = "<Class::" ++ h.className (h.attached klass) ++ ">")
    ∧ (h.btype (h.attached klass) = BType.tModule →
      figure_singleton_name h klass = "<Module::" ++ h.className (h.attached klass) ++ ">")
    ∧ (h.btype (h.attached klass) = BType.tObject →
      figure_singleton_name h klass = "<Object::" ++ h.className (h.superclass klass) ++ ">")
    ∧ (h.btype (h.attached klass) = BType.tIClass ∨ h.btype (h.attached klass) = BType.tOther →
      figure_singleton_name h klass = h.anyToS klass) := by
  refine ⟨fun hb => ?_, fun hb => ?_, fun hb => ?_, fun hb => ?_⟩
  · simp only [figure_singleton_name, hb]
  · simp only [figure_singleton_name, hb]
  · simp only [figure_singleton_name, hb]
  · rcases hb with hb | hb <;> simp only [figure_singleton_name, hb]

/-- Claim C6, witness: the singleton class 51 is attached to class 50
("Foo") and is named `"<Class::Foo>"`. -/
theorem claim_C6_singleton_naming_witness :
    testHost.btype (testHost.attached 51) = BType.tClass
    ∧ figure_singleton_name testHost 51 = "<Class::Foo>" :=
  ⟨by decide, ((claim_C6_singleton_naming testHost 51).1 (by decide)).trans (by decide)⟩

/-- Claim C3 counterexample: a method created with raw owner 100 — an
inclusion proxy (`T_ICLASS`) for module 40 into some class — resolves to
module 40 but with relation bitset 0: the `kModuleIncludee` flag is NOT
set, because `method_key` already substituted the proxy's module at node
creation, so the resolver's walk starts from the module and its `T_ICLASS`
branch never fires.  This refutes the claim at this input. -/
theorem claim_C3_counterexample :
    (resolve_source_klass testHost 5 (prof_method_create testHost 0 100 7 3 (some "a.rb"))).map
      (fun r => (r.1, r.2.relation, RP_REL_GET r.2.relation kModuleIncludee))
    = some (40, 0, false) := by
  decide

/-- Claim C3 amended: for every method whose raw owner is a
module-inclusion proxy for module `M` (regardless of which including class
the method was invoked through — the including class never enters the
computation), `resolve_source_klass` resolves the node's source owner to
`M`, but with an EMPTY relation bitset: `kModuleIncludee` is not set,
because the key normalization in `method_key` already replaced the proxy by
`M` when the node was created. -/
theorem claim_C3_amended (h : Host) (iklass M : VALUE) (mid : RubyID)
    (event : Nat) (line : Int) (sf : Option String) (fuel : Nat)
    (h0 : iklass ≠ 0) (h1 : iklass ≠ Qnil)
    (hi : h.btype iklass = BType.tIClass)
    (hM : h.rbasicKlass iklass = M)
    (hMt : h.btype M = BType.tModule)
    (hM0 : M ≠ 0) (hM1 : M ≠ Qnil) :
    resolve_source_klass h (fuel + 1) (prof_method_create h event iklass mid line sf)
      = some (M, { prof_method_create h event iklass mid line sf with
                    resolved := true, relation := 0, source_klass := M })
    ∧ RP_REL_GET 0 kModuleIncludee = false := by
  have hkey : (prof_method_create h event iklass mid line sf).key.klass = M := by
    unfold prof_method_create prof_method_set_source_info method_key
    cases hsf : (if event ≠ RUBY_EVENT_C_CALL then sf else none) with
    | none =>
      simp only [hsf]
      rw [if_neg (by rintro (rfl | rfl) <;> simp_all), hi, hM]
    | some f =>
      simp only [hsf]
      rw [if_neg (by rintro (rfl | rfl) <;> simp_all), hi, hM]
  have hres : (prof_method_create h event iklass mid line sf).resolved = false := by
    unfold prof_method_create prof_method_set_source_info
    cases hsf : (if event ≠ RUBY_EVENT_C_CALL then sf else none) with
    | none => simp only [hsf]
    | some f => simp only [hsf]
  constructor
  · unfold resolve_source_klass
    rw [hres, if_neg (by simp), hkey]
    rw [show resolve_loop h (fuel + 1) M 0
        = if M = 0 ∨ M = Qnil then some (M, 0)
          else match h.btype M with
            | BType.tClass =>
              if h.flSingleton M then
                let attached := h.attached M
                match h.btype attached with
                | BType.tClass => resolve_loop h fuel attached (RP_REL_SET 0 kModuleSingleton)
                | BType.tModule => resolve_loop h fuel attached (RP_REL_SET 0 kModuleSingleton)
                | BType.tObject =>
                  resolve_loop h fuel (h.superclass M) (RP_REL_SET 0 kObjectSingleton)
                | _ =>
                  resolve_loop h fuel (h.superclass M) (RP_REL_SET 0 kObjectSingleton)
              else some (M, 0)
            | BType.tIClass =>
              resolve_loop h fuel (h.rbasicKlass M) (RP_REL_SET 0 kModuleIncludee)
            | _ => some (M, 0) from rfl]
    rw [if_neg (by rintro (rfl | rfl) <;> simp_all), hMt]
  · decide

/-- Claim C3 amended, witness: proxy 100 for module 40, method id 7. -/
theorem claim_C3_amended_witness :
    ((100 : VALUE) ≠ 0 ∧ (100 : VALUE) ≠ Qnil
      ∧ testHost.btype 100 = BType.tIClass ∧ testHost.rbasicKlass 100 = 40
      ∧ testHost.btype 40 = BType.tModule ∧ (40 : VALUE) ≠ 0 ∧ (40 : VALUE) ≠ Qnil)
    ∧ (resolve_source_klass testHost 5 (prof_method_create testHost 0 100 7 3 (some "a.rb"))
        = some (40, { prof_method_create testHost 0 100 7 3 (some "a.rb") with
                       resolved := true, relation := 0, source_klass := 40 })
      ∧ RP_REL_GET 0 kModuleIncludee = false) :=
  ⟨by decide,
   claim_C3_amended testHost 100 40 7 0 3 (some "a.rb") 4 (by decide) (by decide)
     (by decide) (by decide) (by decide) (by decide) (by decide)⟩

/-- Claim C8: resolution is memoized on the node.  If the node is
unresolved and the walk completes with result `klass` and relation bits
`relation`, the call returns `klass` and a node with `resolved = true` and
both results cached; every subsequent call on that node — under ANY host
and ANY fuel, in particular fuel 0, which cannot take a single walk step —
returns the cached result and leaves the node unchanged. -/
theorem claim_C8_resolution_memoized (h : Host) (fuel : Nat) (m : prof_method_t)
    (klass : VALUE) (relation : Nat)
    (hres : m.resolved = false)
    (hwalk : resolve_loop h fuel m.key.klass 0 = some (klass, relation)) :
    resolve_source_klass h fuel m
      = some (klass, { m with resolved := true, relation := relation, source_klass := klass })
    ∧ ∀ (h2 : Host) (fuel2 : Nat),
        resolve_source_klass h2 fuel2
            { m with resolved := true, relation := relation, source_klass := klass }
          = some (klass, { m with resolved := true, relation := relation, source_klass := klass }) := by
  constructor
  · unfold resolve_source_klass
    rw [hres, if_neg (by simp), hwalk]
  · intro h2 fuel2
    unfold resolve_source_klass
    rw [if_pos rfl]

/-- Claim C8, witness: the singleton class 51 resolves to class 50 with the
`kModuleSingleton` bit; the first call walks, the second returns the cache
even with fuel 0. -/
theorem claim_C8_resolution_memoized_witness :
    ((prof_method_create testHost 0 51 7 3 (some "a.rb")).resolved = false
      ∧ resolve_loop testHost 5
          (prof_method_create testHost 0 51 7 3 (some "a.rb")).key.klass 0 = some (50, 2))
    ∧ (resolve_source_klass testHost 5 (prof_method_create testHost 0 51 7 3 (some "a.rb"))
        = some (50, { prof_method_create testHost 0 51 7 3 (some "a.rb") with
                       resolved := true, relation := 2, source_klass := 50 })
      ∧ ∀ (h2 : Host) (fuel2 : Nat),
          resolve_source_klass h2 fuel2
              { prof_method_create testHost 0 51 7 3 (some "a.rb") with
                 resolved := true, relation := 2, source_klass := 50 }
            = some (50, { prof_method_create testHost 0 51 7 3 (some "a.rb") with
                           resolved := true, relation := 2, source_klass := 50 })) :=
  ⟨⟨by decide, by decide⟩,
   claim_C8_resolution_memoized testHost 5 (prof_method_create testHost 0 51 7 3 (some "a.rb"))
     50 2 (by decide) (by decide)⟩

/-- Claim C9: a node allocated by `prof_method_create` (the create path of
the registry's get-or-create) starts with `root = false`,
`excluded = false`, `recursive = 0`, `visits = 0` and two empty edge
tables; a native (`RUBY_EVENT_C_CALL`) call carries no source file, and a
node without a source file always has line 0 regardless of the line
argument supplied. -/
theorem claim_C9_create_defaults (h : Host) (event : Nat) (klass : VALUE) (mid : RubyID)
    (line : Int) (sf : Option String) (m : prof_method_t)
    (hm : m = prof_method_create h event klass mid line sf) :
    m.root = some false ∧ m.excluded = false ∧ m.recursive = 0 ∧ m.visits = 0
    ∧ m.parent_call_infos = some []
    ∧ m.child_call_infos = some []
    ∧ (event = RUBY_EVENT_C_CALL → m.source_file = none)
    ∧ (m.source_file = none → m.line = 0) := by
  subst hm
  unfold prof_method_create prof_method_set_source_info
  cases hsf : (if event ≠ RUBY_EVENT_C_CALL then sf else none) with
  | none =>
    refine ⟨rfl, rfl, rfl, rfl, rfl, rfl, fun _ => rfl, fun _ => rfl⟩
  | some f =>
    refine ⟨rfl, rfl, rfl, rfl, rfl, rfl, fun he => ?_, fun hn => ?_⟩
    · rw [he, if_neg (by simp)] at hsf
      exact absurd hsf (by simp)
    · exact absurd hn (by simp)

/-- Claim C9, witness: a native call with a nonzero line argument has no
source file and line 0. -/
theorem claim_C9_create_defaults_witness :
    (prof_method_create testHost RUBY_EVENT_C_CALL 50 7 9 (some "x.rb")).root = some false
    ∧ (prof_method_create testHost RUBY_EVENT_C_CALL 50 7 9 (some "x.rb")).excluded = false
    ∧ (prof_method_create testHost RUBY_EVENT_C_CALL 50 7 9 (some "x.rb")).recursive = 0
    ∧ (prof_method_create testHost RUBY_EVENT_C_CALL 50 7 9 (some "x.rb")).visits = 0
    ∧ (prof_method_create testHost RUBY_EVENT_C_CALL 50 7 9 (some "x.rb")).parent_call_infos = some []
    ∧ (prof_method_create testHost RUBY_EVENT_C_CALL 50 7 9 (some "x.rb")).child_call_infos = some []
    ∧ (RUBY_EVENT_C_CALL = RUBY_EVENT_C_CALL →
        (prof_method_create testHost RUBY_EVENT_C_CALL 50 7 9 (some "x.rb")).source_file = none)
    ∧ ((prof_method_create testHost RUBY_EVENT_C_CALL 50 7 9 (some "x.rb")).source_file = none →
        (prof_method_create testHost RUBY_EVENT_C_CALL 50 7 9 (some "x.rb")).line = 0) :=
  claim_C9_create_defaults testHost RUBY_EVENT_C_CALL 50 7 9 (some "x.rb") _ rfl

/-- Claim C10: `prof_method_create_excluded` leaves both edge tables
unallocated (never assigned), unlike `prof_method_create`, which always
creates both; consequently `prof_method_free` — which unconditionally
`st_free_table`s both — and the edge-enumeration accessors operate on an
uninitialized field when applied to an excluded node, while they succeed on
a normally created one. -/
theorem claim_C10_excluded_tables_uninitialized (h : Host) (klass : VALUE) (mid : RubyID) :
    (prof_method_create_excluded h klass mid).parent_call_infos = none
    ∧ (prof_method_create_excluded h klass mid).child_call_infos = none
    ∧ (∀ (event : Nat) (line : Int) (sf : Option String),
        (prof_method_create h event klass mid line sf).parent_call_infos = some []
        ∧ (prof_method_create h event klass mid line sf).child_call_infos = some [])
    ∧ prof_method_free (prof_method_create_excluded h klass mid) = Except.error AccessErr.uninit
    ∧ prof_method_callers (some (prof_method_create_excluded h klass mid))
        = Except.error AccessErr.uninit
    ∧ prof_method_callees (some (prof_method_create_excluded h klass mid))
        = Except.error AccessErr.uninit
    ∧ (∀ (event : Nat) (line : Int) (sf : Option String),
        prof_method_free (prof_method_create h event klass mid line sf) = Except.ok ()) := by
  refine ⟨rfl, rfl, fun event line sf => ?_, rfl, rfl, rfl, fun event line sf => ?_⟩
  · unfold prof_method_create prof_method_set_source_info
    cases hsf : (if event ≠ RUBY_EVENT_C_CALL then sf else none) with
    | none => exact ⟨rfl, rfl⟩
    | some f => exact ⟨rfl, rfl⟩
  · unfold prof_method_free prof_method_create prof_method_set_source_info
    cases hsf : (if event ≠ RUBY_EVENT_C_CALL then sf else none) with
    | none => rfl
    | some f => rfl

/-- Claim C7: `calltree_name` renders the resolved source owner — the
literal `"[global]"` when it is absent, otherwise its qualified name with
the `"::"` namespace separators rewritten to `"/"` — then `"::"`, then
`"*"` when `kObjectSingleton` is set, then `"^"` when `kModuleSingleton` is
set (in that order, both possible), then the plain method name
(`"[no method]"` for an absent method id).  The qualified name is given as
its nonempty list of nonempty colon-free path segments. -/
theorem claim_C7_calltree_name (h : Host) (sk : VALUE) (relation : Nat) (mid : RubyID)
    (segs : List String) (h0 : segs ≠ [])
    (h1 : ∀ s ∈ segs, s ≠ "" ∧ ':' ∉ s.data)
    (hname : RTEST sk = true → h.className sk = rb_ary_join segs "::") :
    calltree_name h sk relation mid
      = (if RTEST sk then rb_ary_join segs "/" else "[global]") ++ "::"
        ++ (if RP_REL_GET relation kObjectSingleton then "*" else "")
        ++ (if RP_REL_GET relation kModuleSingleton then "^" else "")
        ++ (if RTEST mid then h.id2str mid else "[no method]") := by
  have hbase : rb_ary_join (rb_str_split (source_klass_name h sk)) "/"
      = if RTEST sk then rb_ary_join segs "/" else "[global]" := by
    unfold source_klass_name
    cases hsk : RTEST sk with
    | true =>
      rw [if_pos rfl, if_pos rfl, hname hsk, rb_str_split_join segs h0 h1]
    | false =>
      rw [if_neg (by decide), if_neg (by decide)]
      decide
  simp only [calltree_name, method_name]
  rw [hbase]
  cases ho : RP_REL_GET relation kObjectSingleton <;>
    cases hm : RP_REL_GET relation kModuleSingleton <;>
      simp only [ho, hm, Bool.false_eq_true, if_false, if_true, string_append_empty]

/-- Claim C7, witness: resolved owner 41 with qualified name `"A::B"`,
relation `{kModuleSingleton}` (bitset 2), method id 7 (`"run"`) renders as
`"A/B::^run"`. -/
theorem claim_C7_calltree_name_witness :
    (["A", "B"] ≠ ([] : List String)
      ∧ (∀ s ∈ ["A", "B"], s ≠ "" ∧ ':' ∉ s.data)
      ∧ (RTEST 41 = true → testHost.className 41 = rb_ary_join ["A", "B"] "::"))
    ∧ calltree_name testHost 41 2 7 = "A/B::^run" :=
  ⟨⟨by decide, by decide, fun _ => by decide⟩,
   (claim_C7_calltree_name testHost 41 2 7 ["A", "B"] (by decide) (by decide)
      (fun _ => by decide)).trans (by decide)⟩


/-- `prof_method_set_source_info` leaves the key untouched. -/
theorem set_source_info_key (x : prof_method_t) (sf : Option String) (l : Int) :
    (prof_method_set_source_info x sf l).key = x.key := by
  cases sf <;> rfl

/-- `prof_method_set_source_info` stores exactly the given file option. -/
theorem set_source_info_file (x : prof_method_t) (sf : Option String) (l : Int) :
    (prof_method_set_source_info x sf l).source_file = sf := by
  cases sf <;> rfl

/-- `prof_method_set_source_info` keeps the line for a real file and forces
0 for a NULL file. -/
theorem set_source_info_line (x : prof_method_t) (sf : Option String) (l : Int) :
    (prof_method_set_source_info x sf l).line = if sf = none then 0 else l := by
  cases sf with
  | none => rfl
  | some f => rw [if_neg (by intro hc; exact Option.noConfusion hc)]; rfl

/-- `prof_method_set_source_info` leaves the root flag untouched. -/
theorem set_source_info_root (x : prof_method_t) (sf : Option String) (l : Int) :
    (prof_method_set_source_info x sf l).root = x.root := by
  cases sf <;> rfl

/-- `prof_method_set_source_info` leaves the excluded flag untouched. -/
theorem set_source_info_excluded (x : prof_method_t) (sf : Option String) (l : Int) :
    (prof_method_set_source_info x sf l).excluded = x.excluded := by
  cases sf <;> rfl

/-- Rebuilding a table by inserting each stored value under the key the
table already used for it reproduces the table: the fold of
`call_info_table_insert` over the values of a coherent, duplicate-free
table appends its entries unchanged. -/
theorem table_rebuild (keyfn : prof_call_info_t → prof_method_key_t)
    (entries : CallInfoTable) (acc : CallInfoTable)
    (hcoh : ∀ e ∈ entries, keyfn e.2 = e.1)
    (hdisj : ∀ e ∈ entries, table_has acc e.1 = false)
    (hpw : entries.Pairwise (fun a b => st_key_match a.1 b.1 = false)) :
    (entries.map Prod.snd).foldl (fun t ci => call_info_table_insert t (keyfn ci) ci) acc
      = acc ++ entries := by
  induction entries generalizing acc with
  | nil => simp
  | cons e rest ih =>
    obtain ⟨k, ci⟩ := e
    simp only [List.map_cons, List.foldl_cons]
    have hk : keyfn ci = k := hcoh (k, ci) (List.mem_cons_self _ _)
    have hnot : table_has acc k = false := hdisj (k, ci) (List.mem_cons_self _ _)
    have hins : call_info_table_insert acc k ci = acc ++ [(k, ci)] := by
      unfold call_info_table_insert
      rw [hnot]
      rfl
    have hpw1 := (List.pairwise_cons.mp hpw).1
    have hpw2 := (List.pairwise_cons.mp hpw).2
    have hcoh2 : ∀ e2 ∈ rest, keyfn e2.2 = e2.1 :=
      fun e2 he => hcoh e2 (List.mem_cons_of_mem _ he)
    have hdisj2 : ∀ e2 ∈ rest, table_has (acc ++ [(k, ci)]) e2.1 = false := by
      intro e2 he
      have h1' : table_has acc e2.1 = false := hdisj e2 (List.mem_cons_of_mem _ he)
      have h2' : st_key_match k e2.1 = false := hpw1 e2 he
      unfold table_has at h1' ⊢
      rw [List.any_append, h1']
      simp only [List.any_cons, List.any_nil, Bool.or_false, Bool.false_or]
      exact h2'
    rw [hk, hins, ih (acc ++ [(k, ci)]) hcoh2 hdisj2 hpw2, List.append_assoc]
    rfl

/-- Claim C4 counterexample: the claim requires `load(dump(node))` to
reproduce the node's flags, but the dump record carries neither the root
nor the excluded flag: the node `mC4` has `root = true`, yet loading its
dump into a freshly allocated node yields `root = false`. -/
theorem claim_C4_counterexample :
    mC4.root = some true
    ∧ (prof_method_dump (some mC4)).toOption.bind
        (fun r1 => (prof_method_load testHost freshC4 r1).map prof_method_t.root)
      = some (some false) := by
  constructor
  · decide
  · decide

/-- Claim C4 amended: `load(dump(node))` applied to a freshly allocated
node reproduces an equivalent node — equal key (both fields, per the table
comparator), `recursive`, source file and line unchanged, caller and
callee edge tables reproduced exactly (hence equal key sets), a node with
no source file round-trips to no source info and never to an empty string,
and a caller edge whose parent is absent is keyed under `blank_key` —
EXCEPT for the root/excluded flags, which the dump record does not carry:
the loaded node keeps the fresh allocation's `root = false`,
`excluded = false`.  Hypotheses state that the node's tables are coherent
(each edge stored under the key `load` derives for it) and duplicate-free,
that the node's key owner is normalized and non-zero (as `method_key`
guarantees at creation), and the creation invariant "no file implies
line 0". -/
theorem claim_C4_amended (h : Host) (m m0 : prof_method_t) (pt ct : CallInfoTable)
    (hpt : m.parent_call_infos = some pt) (hct : m.child_call_infos = some ct)
    (hm0p : m0.parent_call_infos = some []) (hm0c : m0.child_call_infos = some [])
    (hcohp : ∀ e ∈ pt, e.2.parent.getD blank_key = e.1)
    (hcohc : ∀ e ∈ ct, e.2.method = e.1)
    (hpwp : pt.Pairwise (fun a b => st_key_match a.1 b.1 = false))
    (hpwc : ct.Pairwise (fun a b => st_key_match a.1 b.1 = false))
    (hk0 : m.key.klass ≠ 0)
    (hknorm : h.btype m.key.klass ≠ BType.tIClass)
    (hline : m.source_file = none → m.line = 0) :
    ∃ r1 m2, prof_method_dump (some m) = Except.ok r1
      ∧ prof_method_load h m0 r1 = some m2
      ∧ method_table_cmp m2.key m.key = false
      ∧ m2.recursive = m.recursive
      ∧ m2.source_file = m.source_file
      ∧ m2.line = m.line
      ∧ m2.parent_call_infos = some pt
      ∧ m2.child_call_infos = some ct
      ∧ m2.root = m0.root
      ∧ m2.excluded = m0.excluded
      ∧ (m.source_file = none → m2.source_file = none ∧ m2.source_file ≠ some "")
      ∧ (∀ e ∈ pt, e.2.parent = none → e.1 = blank_key) := by
  have hkk : (method_key h m.key.klass m.key.mid).klass = m.key.klass := by
    show (if m.key.klass = 0 ∨ m.key.klass = Qnil then Qnil
      else match h.btype m.key.klass with
        | BType.tIClass => h.rbasicKlass m.key.klass
        | _ => m.key.klass) = m.key.klass
    by_cases hq : m.key.klass = 0 ∨ m.key.klass = Qnil
    · rcases hq with hq | hq
      · exact absurd hq hk0
      · rw [if_pos (Or.inr hq), hq]
    · rw [if_neg hq]
      cases hb : h.btype m.key.klass with
      | tIClass => exact absurd hb hknorm
      | tClass => rfl
      | tModule => rfl
      | tObject => rfl
      | tOther => rfl
  have hkm : (method_key h m.key.klass m.key.mid).mid = m.key.mid := rfl
  have hkey2 : (prof_method_set_source_info
      { m0 with key := method_key h m.key.klass m.key.mid }
      m.source_file m.line).key = method_key h m.key.klass m.key.mid :=
    set_source_info_key _ _ _
  refine ⟨{ klass := m.key.klass, mid := m.key.mid, recursive := m.recursive,
            source_file := m.source_file, line := m.line,
            callers := pt.map Prod.snd, callees := ct.map Prod.snd },
          { prof_method_set_source_info
              { m0 with key := method_key h m.key.klass m.key.mid }
              m.source_file m.line with
            recursive := m.recursive
            parent_call_infos := some pt
            child_call_infos := some ct },
          ?_, ?_, ?_, ?_, ?_, ?_, ?_, ?_, ?_, ?_, ?_, ?_⟩
  · simp only [prof_method_dump, hpt, hct]
  · have hreb1 := table_rebuild (fun ci => ci.parent.getD blank_key) pt []
      hcohp (fun e _ => rfl) hpwp
    have hreb2 := table_rebuild (fun ci => ci.method) ct []
      hcohc (fun e _ => rfl) hpwc
    rw [List.nil_append] at hreb1 hreb2
    simp only [prof_method_load, hm0p, hm0c]
    rw [hreb1, hreb2]
  · show ((prof_method_set_source_info _ m.source_file m.line).key.klass != m.key.klass
      || (prof_method_set_source_info _ m.source_file m.line).key.mid != m.key.mid) = false
    rw [hkey2, hkk, hkm]
    simp
  · rfl
  · show (prof_method_set_source_info _ m.source_file m.line).source_file = m.source_file
    exact set_source_info_file _ _ _
  · show (prof_method_set_source_info _ m.source_file m.line).line = m.line
    rw [set_source_info_line]
    cases hsf : m.source_file with
    | none => rw [if_pos rfl]; exact (hline hsf).symm
    | some f => rw [if_neg (by intro hc; exact Option.noConfusion hc)]
  · rfl
  · rfl
  · show (prof_method_set_source_info _ m.source_file m.line).root = m0.root
    exact set_source_info_root _ _ _
  · show (prof_method_set_source_info _ m.source_file m.line).excluded = m0.excluded
    exact set_source_info_excluded _ _ _
  · intro hsf
    constructor
    · show (prof_method_set_source_info _ m.source_file m.line).source_file = none
      rw [set_source_info_file, hsf]
    · show (prof_method_set_source_info _ m.source_file m.line).source_file ≠ some ""
      rw [set_source_info_file, hsf]
      intro hcontra
      exact Option.noConfusion hcontra
  · intro e he hpar
    have hc := hcohp e he
    rw [hpar] at hc
    exact hc.symm

/-- Claim C4 amended, witness: the concrete node `mC4` dumped and loaded
into the fresh node `freshC4`. -/
theorem claim_C4_amended_witness :
    (mC4.parent_call_infos = some ptC4 ∧ mC4.child_call_infos = some ctC4
      ∧ freshC4.parent_call_infos = some [] ∧ freshC4.child_call_infos = some []
      ∧ (∀ e ∈ ptC4, e.2.parent.getD blank_key = e.1)
      ∧ (∀ e ∈ ctC4, e.2.method = e.1)
      ∧ ptC4.Pairwise (fun a b => st_key_match a.1 b.1 = false)
      ∧ ctC4.Pairwise (fun a b => st_key_match a.1 b.1 = false)
      ∧ mC4.key.klass ≠ 0
      ∧ testHost.btype mC4.key.klass ≠ BType.tIClass
      ∧ (mC4.source_file = none → mC4.line = 0))
    ∧ (∃ r1 m2, prof_method_dump (some mC4) = Except.ok r1
        ∧ prof_method_load testHost freshC4 r1 = some m2
        ∧ method_table_cmp m2.key mC4.key = false
        ∧ m2.recursive = mC4.recursive
        ∧ m2.source_file = mC4.source_file
        ∧ m2.line = mC4.line
        ∧ m2.parent_call_infos = some ptC4
        ∧ m2.child_call_infos = some ctC4
        ∧ m2.root = freshC4.root
        ∧ m2.excluded = freshC4.excluded
        ∧ (mC4.source_file = none → m2.source_file = none ∧ m2.source_file ≠ some "")
        ∧ (∀ e ∈ ptC4, e.2.parent = none → e.1 = blank_key)) :=
  ⟨⟨by decide, by decide, by decide, by decide, by decide, by decide, by decide, by decide,
    by decide, by decide, by decide⟩,
   claim_C4_amended testHost mC4 freshC4 ptC4 ctC4 (by decide) (by decide) (by decide)
     (by decide) (by decide) (by decide) (by decide) (by decide) (by decide) (by decide)
     (by decide)⟩
